import Mathlib

/-!
Verification development for the code-server connection broker.

The definitions below are a shallow embedding of the repository's source:

* `createReponseHeaders` and `upgrade` embed the WebSocket upgrade handshake
  (source files `src/unnamed/part_000` and `src/unnamed/part_001`), together
  with executable SHA-1 and base64 implementations standing for Node's
  `createHash('sha1').update(...).digest('base64')`.
* `connect`, `disposeOldOfflineConnections` and the registry operations embed
  `WebSocketServer` from `src/lib/vscode/src/vs/server/connectionHandler.ts`.

Machine integers are modelled as `Nat` with explicit `% 2 ^ 32` where 32-bit
overflow matters.  JavaScript `Map` objects are modelled as association lists
that preserve insertion order, matching the iteration order of `Map.values()`.
-/

/-! ## Bytes and 32-bit arithmetic -/

/-- `2 ^ 32`, the modulus for 32-bit words. -/
def w32 : Nat := 4294967296

/-- Rotate the 32-bit word `x` left by `k` bits. -/
def rotl (k x : Nat) : Nat := ((x <<< k) % w32) ||| (x >>> (32 - k))

/-- Big-endian byte expansion of `n` into `k` bytes. -/
def beBytes : Nat → Nat → List Nat
  | 0, _ => []
  | k + 1, n => beBytes k (n / 256) ++ [n % 256]

/-- Value of a big-endian byte list. -/
def beWord (bs : List Nat) : Nat := bs.foldl (fun a b => a * 256 + b) 0

/-- Split a list into consecutive chunks of size `n`, with explicit fuel. -/
def chunksFuel : Nat → Nat → List Nat → List (List Nat)
  | 0, _, _ => []
  | _, _, [] => []
  | fuel + 1, n, a :: rest => (a :: rest).take n :: chunksFuel fuel n ((a :: rest).drop n)

/-- Apply `f` to `a`, `n` times. -/
def iterateN (f : α → α) : Nat → α → α
  | 0, a => a
  | n + 1, a => iterateN f n (f a)

/-- UTF-8 encoding of one character, as Node's `Buffer.from(s, 'utf8')` uses. -/
def utf8Bytes (c : Char) : List Nat :=
  let n := c.toNat
  if n < 128 then [n]
  else if n < 2048 then [192 ||| (n >>> 6), 128 ||| (n &&& 63)]
  else if n < 65536 then
    [224 ||| (n >>> 12), 128 ||| ((n >>> 6) &&& 63), 128 ||| (n &&& 63)]
  else
    [240 ||| (n >>> 18), 128 ||| ((n >>> 12) &&& 63), 128 ||| ((n >>> 6) &&& 63),
      128 ||| (n &&& 63)]

/-- UTF-8 bytes of a string. -/
def strBytes (s : String) : List Nat := (s.data.map utf8Bytes).flatten

/-! ## SHA-1 (FIPS 180-4), operating on byte lists -/

/-- SHA-1 round function: choice, parity, majority, parity. -/
def sha1F (t b c d : Nat) : Nat :=
  if t < 20 then (b &&& c) ||| ((b ^^^ (w32 - 1)) &&& d)
  else if t < 40 then b ^^^ c ^^^ d
  else if t < 60 then (b &&& c) ||| (b &&& d) ||| (c &&& d)
  else b ^^^ c ^^^ d

/-- SHA-1 round constants. -/
def sha1K (t : Nat) : Nat :=
  if t < 20 then 1518500249
  else if t < 40 then 1859775393
  else if t < 60 then 2400959708
  else 3395469782

/-- Append one extended message-schedule word (FIPS 180-4 §6.1.2 step 1). -/
def sha1ExtendStep (ws : Array Nat) : Array Nat :=
  let i := ws.size
  ws.push (rotl 1 ((ws.getD (i - 3) 0) ^^^ (ws.getD (i - 8) 0) ^^^
    (ws.getD (i - 14) 0) ^^^ (ws.getD (i - 16) 0)))

/-- The SHA-1 initial hash value. -/
def sha1Init : Nat × Nat × Nat × Nat × Nat :=
  (1732584193, 4023233417, 2562383102, 271733878, 3285377520)

/-- Compress one 64-byte chunk into the running hash value. -/
def sha1Chunk (h : Nat × Nat × Nat × Nat × Nat) (chunk : List Nat) :
    Nat × Nat × Nat × Nat × Nat :=
  let ws0 := (chunksFuel chunk.length 4 chunk).map beWord
  let ws := iterateN sha1ExtendStep 64 ws0.toArray
  let (h0, h1, h2, h3, h4) := h
  let (a, b, c, d, e) := (List.range 80).foldl
    (fun s t =>
      let (a, b, c, d, e) := s
      ((rotl 5 a + sha1F t b c d + e + sha1K t + ws.getD t 0) % w32,
        a, rotl 30 b, c, d))
    (h0, h1, h2, h3, h4)
  ((h0 + a) % w32, (h1 + b) % w32, (h2 + c) % w32, (h3 + d) % w32, (h4 + e) % w32)

/-- SHA-1 padding: `0x80`, zeros to 56 mod 64, then the 64-bit bit length. -/
def sha1Pad (msg : List Nat) : List Nat :=
  let len := msg.length
  let zeros := (56 + 64 - ((len + 1) % 64)) % 64
  msg ++ [128] ++ List.replicate zeros 0 ++ beBytes 8 (8 * len)

/-- SHA-1 digest of a byte list: 20 bytes. -/
def sha1 (msg : List Nat) : List Nat :=
  let padded := sha1Pad msg
  let (h0, h1, h2, h3, h4) := (chunksFuel padded.length 64 padded).foldl sha1Chunk sha1Init
  beBytes 4 h0 ++ beBytes 4 h1 ++ beBytes 4 h2 ++ beBytes 4 h3 ++ beBytes 4 h4

/-! ## Base64 (RFC 4648, with padding), as Node's `digest('base64')` -/

/-- The base64 alphabet. -/
def b64Alphabet : List Char :=
  "ABCDEFGHIJKLMNOPQRSTUVWXYZabcdefghijklmnopqrstuvwxyz0123456789+/".data

/-- The base64 character for a 6-bit value. -/
def b64Char (n : Nat) : Char := b64Alphabet.getD n 'A'

/-- Base64 encoding of a byte list, padded with `=`. -/
def base64Encode : List Nat → String
  | [] => ""
  | [a] => String.mk [b64Char (a >>> 2), b64Char ((a &&& 3) <<< 4)] ++ "=="
  | [a, b] =>
    String.mk [b64Char (a >>> 2), b64Char (((a &&& 3) <<< 4) ||| (b >>> 4)),
      b64Char ((b &&& 15) <<< 2)] ++ "="
  | a :: b :: c :: rest =>
    String.mk [b64Char (a >>> 2), b64Char (((a &&& 3) <<< 4) ||| (b >>> 4)),
      b64Char (((b &&& 15) <<< 2) ||| (c >>> 6)), b64Char (c &&& 63)] ++
      base64Encode rest

/-! ## Handshake Codec (`src/unnamed/part_000`, `websocket.ts`) -/

/-- Incoming HTTP headers: a mapping from (Node-lowercased) names to values.
Absent headers are simply missing from the list. -/
abbrev Headers := List (String × String)

/-- Header lookup, as `incomingHeaders[name]` on Node's header object. -/
def headersGet (hs : Headers) (name : String) : Option String :=
  (hs.find? fun p => p.1 == name).map (·.2)

/-- JavaScript string coercion of a possibly-`undefined` header value:
`undefined` becomes the literal string `"undefined"` (both in
`acceptKey + WEBSOCKET_MAGIC` and in `String(...)`). -/
def jsHeaderString : Option String → String
  | some s => s
  | none => "undefined"

/-- Decide whether `pat` occurs as a contiguous sublist, as JS
`String.prototype.indexOf(pat) !== -1` (case-sensitive). -/
def hasSubstring (pat : List Char) : List Char → Bool
  | [] => pat.isEmpty
  | c :: rest => pat.isPrefixOf (c :: rest) || hasSubstring pat rest

/-- Magic number defined by the WebSocket spec (`WEBSOCKET_MAGIC`). -/
def WEBSOCKET_MAGIC : String := "258EAFA5-E914-47DA-95CA-C5AB0DC85B11"

/-- The advertised extension line pushed when permessage-deflate matches. -/
def extensionLine : String :=
  "Sec-WebSocket-Extensions: permessage-deflate; server_max_window_bits=15"

/-- Result of `createReponseHeaders`. -/
structure HandshakeHeaders where
  responseHeaders : String
  permessageDeflate : Bool
  deriving DecidableEq

/-- Embedding of `createReponseHeaders` (src/unnamed/part_000, lines 10-30):
reads `sec-websocket-key` (an absent key is coerced to `"undefined"` by JS
string concatenation), hashes it with the magic suffix, builds the literal
101 header block, and appends the extensions line when
`String(headers['sec-websocket-extensions']).indexOf('permessage-deflate')`
is not `-1`. -/
def createReponseHeaders (incomingHeaders : Headers) : HandshakeHeaders :=
  let acceptKey := headersGet incomingHeaders "sec-websocket-key"
  let hash := base64Encode (sha1 (strBytes (jsHeaderString acceptKey ++ WEBSOCKET_MAGIC)))
  let responseHeaders := ["HTTP/1.1 101 Web Socket Protocol Handshake",
    "Upgrade: WebSocket", "Connection: Upgrade", "Sec-WebSocket-Accept: " ++ hash]
  let extHeader := jsHeaderString (headersGet incomingHeaders "sec-websocket-extensions")
  if hasSubstring "permessage-deflate".data extHeader.data then
    ⟨String.intercalate "\r\n" (responseHeaders ++ [extensionLine]) ++ "\r\n\r\n", true⟩
  else
    ⟨String.intercalate "\r\n" responseHeaders ++ "\r\n\r\n", false⟩

/-- JS falsiness of `req.url`: `undefined` or the empty string. -/
def jsFalsyStr : Option String → Bool
  | none => true
  | some s => s.isEmpty

/-- Result of the HTTP upgrade entry point. -/
inductive UpgradeResult
  | badRequest
  | accepted (resp : HandshakeHeaders)
  deriving DecidableEq

/-- Embedding of the `upgrade` handler (src/unnamed/part_001, lines 24-52):
rejects with `HTTP/1.1 400 Bad Request` when the `upgrade` header is not
`websocket` or the URL is falsy, or when query connection options fail to
parse (`parseQueryConnectionOptions` is not under src/, so its success is the
parameter `parseOk`); otherwise writes the `createReponseHeaders` block.
No check of `sec-websocket-key` is performed on this path. -/
def upgrade (headers : Headers) (url : Option String) (parseOk : Bool) : UpgradeResult :=
  if headersGet headers "upgrade" ≠ some "websocket" ∨ jsFalsyStr url then .badRequest
  else if parseOk = false then .badRequest
  else .accepted (createReponseHeaders headers)

/-! ## Connection Registry (`src/lib/vscode/src/vs/server/connectionHandler.ts`)

`WebSocketServer` keeps `_connections : Map<ConnectionType, Map<string, Connection>>`.
Connection types are the `ConnectionType` enum of
`vs/platform/remote/common/remoteAgentConnection`: `Management = 1`,
`ExtensionHost = 2`, `Tunnel = 3`; the value carried by the hello message is
modelled as `Option Nat` (`none` for an absent field, other naturals for
unrecognized values).  JS `Map`s become association lists preserving
insertion order; `Map.set` replaces in place or appends. -/

/-- A live `Connection` object (`ManagementConnection` / `ExtensionHostConnection`).
`id` models JS object identity, `socketId` the currently bound socket, and
`offline` the `offline` timestamp field (`none` while online), which is what
`disposeOldOfflineConnections` tests with `typeof connection.offline !== 'undefined'`. -/
structure Conn where
  id : Nat
  socketId : Nat
  offline : Option Nat
  deriving DecidableEq

/-- One per-type token map, in `Map` insertion order. -/
abbrev Bucket := List (String × Conn)

/-- The registry state: `_connections` plus a counter allocating fresh object
identities for newly constructed connections. -/
structure ServerState where
  buckets : List (Nat × Bucket)
  nextId : Nat
  deriving DecidableEq

/-- `Map.get` on the outer map. -/
def getAssoc : List (Nat × Bucket) → Nat → Option Bucket
  | [], _ => none
  | (k, v) :: rest, ct => if k = ct then some v else getAssoc rest ct

/-- `Map.set` on the outer map: replace in place, else append. -/
def setAssoc : List (Nat × Bucket) → Nat → Bucket → List (Nat × Bucket)
  | [], ct, b => [(ct, b)]
  | (k, v) :: rest, ct, b =>
    if k = ct then (ct, b) :: rest else (k, v) :: setAssoc rest ct b

/-- The token map for a connection type (an untouched type reads as empty). -/
def getBucket (st : ServerState) (ct : Nat) : Bucket :=
  (getAssoc st.buckets ct).getD []

/-- `Map.get` on a token map. -/
def bucketGet : Bucket → String → Option Conn
  | [], _ => none
  | (k, v) :: rest, tok => if k = tok then some v else bucketGet rest tok

/-- `Map.set` on a token map: replace in place, else append (so the list
order is creation order, reconnection never re-inserts). -/
def bucketSet : Bucket → String → Conn → Bucket
  | [], tok, c => [(tok, c)]
  | (k, v) :: rest, tok, c =>
    if k = tok then (tok, c) :: rest else (k, v) :: bucketSet rest tok c

/-- Registry lookup for one (type, token) pair. -/
def lookupConn (st : ServerState) (ct : Nat) (tok : String) : Option Conn :=
  bucketGet (getBucket st ct) tok

/-- Store a connection under (type, token). -/
def setConn (st : ServerState) (ct : Nat) (tok : String) (c : Conn) : ServerState :=
  { st with buckets := setAssoc st.buckets ct (bucketSet (getBucket st ct) tok c) }

/-- Embedding of `getCachedConnectionMap` (connectionHandler.ts lines 36-45):
ensures a (possibly empty) token map exists for the type.  Observationally a
no-op for `lookupConn`. -/
def getCachedConnectionMap (st : ServerState) (ct : Nat) : ServerState :=
  { st with buckets := setAssoc st.buckets ct (getBucket st ct) }

/-- `maxExtraOfflineConnections` (connectionHandler.ts line 29). -/
def maxExtraOfflineConnections : Nat := 0

/-- The offline entries of a bucket, in creation order — the list
`Array.from(connections.values()).filter(c => typeof c.offline !== 'undefined')`
paired with each connection's token. -/
def offlineEntries (b : Bucket) : Bucket :=
  b.filter fun e => e.2.offline.isSome

/-- Embedding of `disposeOldOfflineConnections` (connectionHandler.ts lines
148-153) together with the `onClose` handlers registered at creation (line
142): the first `offline.length - max` offline connections (the
oldest-created, since the map iterates in insertion order) are disposed,
and disposal fires `onClose`, which deletes the entry by its token.
Returns the surviving bucket and the disposed entries in disposal order. -/
def disposeOldOfflineConnections (max : Nat) (b : Bucket) : Bucket × Bucket :=
  let offline := offlineEntries b
  let doomed := offline.take (offline.length - max)
  (b.filter fun e => ! doomed.any fun d => d.1 == e.1, doomed)

/-- The decoded hello message (`protocol.handshake()` result); only the
fields `connect` reads.  `desiredConnectionType` is optional in the wire
format, and JS treats the value `0` as falsy exactly like an absent field. -/
structure HelloMessage where
  commit : String
  desiredConnectionType : Option Nat
  deriving DecidableEq

/-- The `ServerProtocol` fields `connect` reads: the bound physical socket
and the reconnection options parsed from the upgrade URL query. -/
structure Protocol where
  socketId : Nat
  reconnectionToken : String
  reconnection : Bool
  deriving DecidableEq

/-- The errors `connect` throws, one constructor per `throw` site, labelled
by the spec's taxonomy: `expectedConnectionType` is the missing-type throw
(line 84), `staleSession` line 99, `tokenCollision` line 104,
`spawnFailure` a failed `connection.spawn()` (line 133), and
`unknownConnectionType` the switch default (line 138). -/
inductive ConnectError
  | expectedConnectionType
  | staleSession
  | tokenCollision
  | spawnFailure
  | unknownConnectionType
  deriving DecidableEq

/-- How `connect` resolved the hello.  `created c notified` also records
whether `_onDidClientConnect` was fired for it (true exactly for the
Management variant). -/
inductive ConnectOutcome
  | created (c : Conn) (notified : Bool)
  | reconnected (c : Conn)
  | tunneled
  | failed (e : ConnectError)
  deriving DecidableEq

/-- Number of times the connect notification fired during one `connect`. -/
def notifCount : ConnectOutcome → Nat
  | .created _ true => 1
  | _ => 0

/-- Result of one `connect` call: the registry afterwards, the outcome, and
the entries disposed by `disposeOldOfflineConnections` during the call. -/
structure ConnectResult where
  state : ServerState
  outcome : ConnectOutcome
  closed : Bucket
  deriving DecidableEq

/-- Modelled from the spec: `Connection.reconnect(protocol)` lives in
`managementConnection.ts` / `extensionHostConnection.ts`, which are not under
src/.  Per §4.4 rule 2 it rebinds the socket to the new one (closing the old
reference) and transitions the connection to Online, leaving its identity
unchanged. -/
def reconnectConn (c : Conn) (proto : Protocol) : Conn :=
  { c with socketId := proto.socketId, offline := none }

/-- Register a freshly created connection: `connections.set(token, connection)`
followed by `disposeOldOfflineConnections(connections)` (connectionHandler.ts
lines 141-144), consuming one fresh object identity. -/
def registerConnection (st : ServerState) (ct : Nat) (tok : String) (c : Conn)
    (notified : Bool) : ConnectResult :=
  let b := bucketSet (getBucket st ct) tok c
  let pruned := disposeOldOfflineConnections maxExtraOfflineConnections b
  ⟨⟨setAssoc st.buckets ct pruned.1, st.nextId + 1⟩, .created c notified, pruned.2⟩

/-- Embedding of `WebSocketServer.connect` (connectionHandler.ts lines
72-146).  The version-mismatch warning (lines 75-79) only logs and is not
modelled.  `spawnOk` stands for whether `ExtensionHostConnection.spawn()`
(not under src/) succeeds.  Thrown errors become `.failed` outcomes carrying
the registry state at the throw site (mutations already performed stay). -/
def connect (st : ServerState) (msg : HelloMessage) (proto : Protocol)
    (spawnOk : Bool) : ConnectResult :=
  match msg.desiredConnectionType with
  | none => ⟨st, .failed .expectedConnectionType, []⟩
  | some ct =>
    if ct = 0 then ⟨st, .failed .expectedConnectionType, []⟩
    else
      let st1 := getCachedConnectionMap st ct
      match bucketGet (getBucket st1 ct) proto.reconnectionToken with
      | some c =>
        if proto.reconnection then
          let c' := reconnectConn c proto
          ⟨setConn st1 ct proto.reconnectionToken c', .reconnected c', []⟩
        else ⟨st1, .failed .tokenCollision, []⟩
      | none =>
        if proto.reconnection then ⟨st1, .failed .staleSession, []⟩
        else if ct = 1 then
          registerConnection st1 ct proto.reconnectionToken
            ⟨st1.nextId, proto.socketId, none⟩ true
        else if ct = 2 then
          if spawnOk then
            registerConnection st1 ct proto.reconnectionToken
              ⟨st1.nextId, proto.socketId, none⟩ false
          else ⟨{ st1 with nextId := st1.nextId + 1 }, .failed .spawnFailure, []⟩
        else if ct = 3 then ⟨st1, .tunneled, []⟩
        else ⟨st1, .failed .unknownConnectionType, []⟩

/-- Embedding of `WebSocketServer.handleWebSocket` (lines 61-70): runs
`connect` and, when it throws, catches the error and calls
`protocol.dispose(...)`.  The boolean records whether the socket's protocol
was disposed. -/
def handleWebSocket (st : ServerState) (msg : HelloMessage) (proto : Protocol)
    (spawnOk : Bool) : ConnectResult × Bool :=
  let r := connect st msg proto spawnOk
  (r, match r.outcome with | .failed _ => true | _ => false)

/-- Modelled from the spec: the Online → Offline transition (§4.4
`markOffline`) is performed by the `Connection` object itself
(`managementConnection.ts`, not under src/), which records the offline
timestamp while the registry entry stays.  No eviction accompanies this
transition in this repository: `disposeOldOfflineConnections` is private to
`WebSocketServer` and its only call site is at the end of `connect`. -/
def markOffline (st : ServerState) (ct : Nat) (tok : String) (now : Nat) : ServerState :=
  match lookupConn st ct tok with
  | some c => setConn st ct tok { c with offline := some now }
  | none => st

/-- Number of offline connections currently retained for a type. -/
def offlineCount (st : ServerState) (ct : Nat) : Nat :=
  (offlineEntries (getBucket st ct)).length

/-- All object identities in the registry are below `nextId`, so
`nextId` is genuinely fresh.  Holds for every state reachable from the empty
registry. -/
def freshIds (st : ServerState) : Bool :=
  st.buckets.all fun p => p.2.all fun e => e.2.id < st.nextId

set_option maxRecDepth 100000

/-! ## Helper lemmas on the map operations -/

theorem getAssoc_setAssoc_same (l : List (Nat × Bucket)) (ct : Nat) (b : Bucket) :
    getAssoc (setAssoc l ct b) ct = some b := by
  induction l with
  | nil => simp [setAssoc, getAssoc]
  | cons hd tl ih =>
    by_cases h : hd.1 = ct
    · simp [setAssoc, getAssoc, h]
    · simp [setAssoc, getAssoc, h, ih]

theorem getAssoc_setAssoc_other (l : List (Nat × Bucket)) (ct ct' : Nat) (b : Bucket)
    (h : ct' ≠ ct) : getAssoc (setAssoc l ct b) ct' = getAssoc l ct' := by
  induction l with
  | nil => simp [setAssoc, getAssoc, Ne.symm h]
  | cons hd tl ih =>
    rcases hd with ⟨k, v⟩
    by_cases hk : k = ct
    · subst hk
      simp [setAssoc, getAssoc, Ne.symm h]
    · by_cases hk' : k = ct'
      · subst hk'
        simp [setAssoc, getAssoc, hk]
      · simp [setAssoc, getAssoc, hk, hk', ih]

theorem bucketGet_bucketSet_same (b : Bucket) (tok : String) (c : Conn) :
    bucketGet (bucketSet b tok c) tok = some c := by
  induction b with
  | nil => simp [bucketSet, bucketGet]
  | cons hd tl ih =>
    by_cases h : hd.1 = tok
    · simp [bucketSet, bucketGet, h]
    · simp [bucketSet, bucketGet, h, ih]

theorem bucketGet_bucketSet_other (b : Bucket) (tok tok' : String) (c : Conn)
    (h : tok' ≠ tok) : bucketGet (bucketSet b tok c) tok' = bucketGet b tok' := by
  induction b with
  | nil => simp [bucketSet, bucketGet, Ne.symm h]
  | cons hd tl ih =>
    rcases hd with ⟨k, v⟩
    by_cases hk : k = tok
    · subst hk
      simp [bucketSet, bucketGet, Ne.symm h]
    · by_cases hk' : k = tok'
      · subst hk'
        simp [bucketSet, bucketGet, hk]
      · simp [bucketSet, bucketGet, hk, hk', ih]

theorem getBucket_getCached (st : ServerState) (ct ct' : Nat) :
    getBucket (getCachedConnectionMap st ct) ct' = getBucket st ct' := by
  by_cases h : ct' = ct
  · subst h
    simp [getBucket, getCachedConnectionMap, getAssoc_setAssoc_same]
  · simp [getBucket, getCachedConnectionMap, getAssoc_setAssoc_other _ _ _ _ h]

theorem lookupConn_getCached (st : ServerState) (ct ct' : Nat) (tok : String) :
    lookupConn (getCachedConnectionMap st ct) ct' tok = lookupConn st ct' tok := by
  simp [lookupConn, getBucket_getCached]

theorem getBucket_setConn_same (st : ServerState) (ct : Nat) (tok : String) (c : Conn) :
    getBucket (setConn st ct tok c) ct = bucketSet (getBucket st ct) tok c := by
  simp [getBucket, setConn, getAssoc_setAssoc_same]

theorem getBucket_setConn_other (st : ServerState) (ct ct' : Nat) (tok : String) (c : Conn)
    (h : ct' ≠ ct) : getBucket (setConn st ct tok c) ct' = getBucket st ct' := by
  simp [getBucket, setConn, getAssoc_setAssoc_other _ _ _ _ h]

theorem lookupConn_setConn_same (st : ServerState) (ct : Nat) (tok : String) (c : Conn) :
    lookupConn (setConn st ct tok c) ct tok = some c := by
  simp [lookupConn, getBucket_setConn_same, bucketGet_bucketSet_same]

theorem lookupConn_setConn_other (st : ServerState) (ct ct' : Nat) (tok tok' : String)
    (c : Conn) (h : ct' ≠ ct ∨ tok' ≠ tok) :
    lookupConn (setConn st ct tok c) ct' tok' = lookupConn st ct' tok' := by
  rcases h with h | h
  · simp [lookupConn, getBucket_setConn_other _ _ _ _ _ h]
  · by_cases hct : ct' = ct
    · subst hct
      simp [lookupConn, getBucket_setConn_same, bucketGet_bucketSet_other _ _ _ _ h]
    · simp [lookupConn, getBucket_setConn_other _ _ _ _ _ hct]

theorem bucketGet_eq_none_iff (b : Bucket) (tok : String) :
    bucketGet b tok = none ↔ ∀ e ∈ b, e.1 ≠ tok := by
  induction b with
  | nil => simp [bucketGet]
  | cons hd tl ih =>
    by_cases h : hd.1 = tok
    · simp [bucketGet, h]
    · simp [bucketGet, h, ih]

theorem bucketSet_of_none (b : Bucket) (tok : String) (c : Conn)
    (h : bucketGet b tok = none) : bucketSet b tok c = b ++ [(tok, c)] := by
  induction b with
  | nil => simp [bucketSet]
  | cons hd tl ih =>
    by_cases hk : hd.1 = tok
    · simp [bucketGet, hk] at h
    · simp only [bucketGet, hk, if_false, if_neg hk] at h ⊢
      simp [bucketSet, hk, ih h]

theorem bucketGet_append_of_none (l l' : Bucket) (tok : String)
    (h : ∀ e ∈ l, e.1 ≠ tok) : bucketGet (l ++ l') tok = bucketGet l' tok := by
  induction l with
  | nil => simp
  | cons hd tl ih =>
    have hhd : hd.1 ≠ tok := h hd (List.mem_cons_self hd tl)
    simp only [List.cons_append, bucketGet, if_neg hhd]
    exact ih fun e he => h e (List.mem_cons_of_mem hd he)

theorem bucketGet_mem (b : Bucket) (tok : String) (c : Conn)
    (h : bucketGet b tok = some c) : (tok, c) ∈ b := by
  induction b with
  | nil => simp [bucketGet] at h
  | cons hd tl ih =>
    rcases hd with ⟨k, v⟩
    by_cases hk : k = tok
    · subst hk
      simp only [bucketGet, if_pos rfl] at h
      obtain rfl : v = c := by injection h
      exact List.mem_cons_self _ _
    · simp only [bucketGet, if_neg hk] at h
      exact List.mem_cons_of_mem _ (ih h)

theorem getAssoc_mem (l : List (Nat × Bucket)) (ct : Nat) (b : Bucket)
    (h : getAssoc l ct = some b) : (ct, b) ∈ l := by
  induction l with
  | nil => simp [getAssoc] at h
  | cons hd tl ih =>
    rcases hd with ⟨k, v⟩
    by_cases hk : k = ct
    · subst hk
      simp only [getAssoc, if_pos rfl] at h
      obtain rfl : v = b := by injection h
      exact List.mem_cons_self _ _
    · simp only [getAssoc, if_neg hk] at h
      exact List.mem_cons_of_mem _ (ih h)

theorem freshIds_lt (st : ServerState) (ct : Nat) (tok : String) (c : Conn)
    (hw : freshIds st = true) (h : (tok, c) ∈ getBucket st ct) : c.id < st.nextId := by
  unfold getBucket at h
  cases hb : getAssoc st.buckets ct with
  | none => rw [hb] at h; simp at h
  | some b =>
    rw [hb] at h
    simp only [Option.getD_some] at h
    have hmem := getAssoc_mem _ _ _ hb
    simp only [freshIds, List.all_eq_true] at hw
    have := hw _ hmem
    simp only [List.all_eq_true] at this
    have := this _ h
    simpa using this

/-- With the hard-coded retention count 0, every offline entry is doomed,
so everything surviving `disposeOldOfflineConnections` is online. -/
theorem dispose_zero_survivors (b : Bucket) (e : String × Conn)
    (h : e ∈ (disposeOldOfflineConnections 0 b).1) : e.2.offline = none := by
  simp only [disposeOldOfflineConnections, Nat.sub_zero, List.take_length,
    List.mem_filter] at h
  rcases h with ⟨hmem, hpred⟩
  cases hoff : e.2.offline with
  | none => rfl
  | some t =>
    exfalso
    have hin : e ∈ offlineEntries b := by
      simp [offlineEntries, List.mem_filter, hmem, hoff]
    simp only [Bool.not_eq_eq_eq_not, Bool.not_true, List.any_eq_false] at hpred
    have := hpred e hin
    simp at this

/-- With retention count 0 the disposed list is exactly the offline entries,
in creation (map-insertion) order. -/
theorem dispose_zero_closed (b : Bucket) :
    (disposeOldOfflineConnections 0 b).2 = offlineEntries b := by
  simp [disposeOldOfflineConnections]

/-- Entries surviving disposal were in the bucket before. -/
theorem dispose_subset (max : Nat) (b : Bucket) (e : String × Conn)
    (h : e ∈ (disposeOldOfflineConnections max b).1) : e ∈ b :=
  List.mem_of_mem_filter h

/-- Appending an online entry does not change the offline entries. -/
theorem offlineEntries_append_online (b : Bucket) (tok : String) (c : Conn)
    (hc : c.offline = none) : offlineEntries (b ++ [(tok, c)]) = offlineEntries b := by
  simp [offlineEntries, List.filter_append, hc]

/-- Offline entries come from the bucket. -/
theorem offlineEntries_subset (b : Bucket) (e : String × Conn)
    (h : e ∈ offlineEntries b) : e ∈ b :=
  List.mem_of_mem_filter h

/-! ## Path characterizations of `connect` -/

theorem connect_eq_missing (st : ServerState) (msg : HelloMessage) (proto : Protocol)
    (spawnOk : Bool)
    (hmsg : msg.desiredConnectionType = none ∨ msg.desiredConnectionType = some 0) :
    connect st msg proto spawnOk = ⟨st, .failed .expectedConnectionType, []⟩ := by
  rcases hmsg with h | h
  · unfold connect
    rw [h]
  · unfold connect
    rw [h]
    simp

theorem connect_eq_reconnected (st : ServerState) (msg : HelloMessage) (proto : Protocol)
    (spawnOk : Bool) (ct : Nat) (c : Conn)
    (hmsg : msg.desiredConnectionType = some ct) (hct : ct ≠ 0)
    (hfound : lookupConn st ct proto.reconnectionToken = some c)
    (hrec : proto.reconnection = true) :
    connect st msg proto spawnOk =
      ⟨setConn (getCachedConnectionMap st ct) ct proto.reconnectionToken
          (reconnectConn c proto),
        .reconnected (reconnectConn c proto), []⟩ := by
  have hf : bucketGet (getBucket (getCachedConnectionMap st ct) ct)
      proto.reconnectionToken = some c := by
    rw [getBucket_getCached]; exact hfound
  unfold connect
  rw [hmsg]
  simp only [if_neg hct, hf, hrec, if_true]

theorem connect_eq_stale (st : ServerState) (msg : HelloMessage) (proto : Protocol)
    (spawnOk : Bool) (ct : Nat)
    (hmsg : msg.desiredConnectionType = some ct) (hct : ct ≠ 0)
    (hnone : lookupConn st ct proto.reconnectionToken = none)
    (hrec : proto.reconnection = true) :
    connect st msg proto spawnOk =
      ⟨getCachedConnectionMap st ct, .failed .staleSession, []⟩ := by
  have hf : bucketGet (getBucket (getCachedConnectionMap st ct) ct)
      proto.reconnectionToken = none := by
    rw [getBucket_getCached]; exact hnone
  unfold connect
  rw [hmsg]
  simp only [if_neg hct, hf, hrec, if_true]

theorem connect_eq_collision (st : ServerState) (msg : HelloMessage) (proto : Protocol)
    (spawnOk : Bool) (ct : Nat) (c : Conn)
    (hmsg : msg.desiredConnectionType = some ct) (hct : ct ≠ 0)
    (hfound : lookupConn st ct proto.reconnectionToken = some c)
    (hrec : proto.reconnection = false) :
    connect st msg proto spawnOk =
      ⟨getCachedConnectionMap st ct, .failed .tokenCollision, []⟩ := by
  have hf : bucketGet (getBucket (getCachedConnectionMap st ct) ct)
      proto.reconnectionToken = some c := by
    rw [getBucket_getCached]; exact hfound
  unfold connect
  rw [hmsg]
  simp only [if_neg hct, hf, hrec, Bool.false_eq_true, if_false]

theorem connect_eq_created_management (st : ServerState) (msg : HelloMessage)
    (proto : Protocol) (spawnOk : Bool)
    (hmsg : msg.desiredConnectionType = some 1)
    (hnone : lookupConn st 1 proto.reconnectionToken = none)
    (hrec : proto.reconnection = false) :
    connect st msg proto spawnOk =
      registerConnection (getCachedConnectionMap st 1) 1 proto.reconnectionToken
        ⟨st.nextId, proto.socketId, none⟩ true := by
  have hf : bucketGet (getBucket (getCachedConnectionMap st 1) 1)
      proto.reconnectionToken = none := by
    rw [getBucket_getCached]; exact hnone
  unfold connect
  rw [hmsg]
  simp [hf, hrec]
  rfl

theorem connect_eq_created_exthost (st : ServerState) (msg : HelloMessage)
    (proto : Protocol)
    (hmsg : msg.desiredConnectionType = some 2)
    (hnone : lookupConn st 2 proto.reconnectionToken = none)
    (hrec : proto.reconnection = false) :
    connect st msg proto true =
      registerConnection (getCachedConnectionMap st 2) 2 proto.reconnectionToken
        ⟨st.nextId, proto.socketId, none⟩ false := by
  have hf : bucketGet (getBucket (getCachedConnectionMap st 2) 2)
      proto.reconnectionToken = none := by
    rw [getBucket_getCached]; exact hnone
  unfold connect
  rw [hmsg]
  simp only [hf, hrec, Bool.false_eq_true, if_false, if_true]
  rfl

theorem connect_eq_tunneled (st : ServerState) (msg : HelloMessage) (proto : Protocol)
    (spawnOk : Bool)
    (hmsg : msg.desiredConnectionType = some 3)
    (hnone : lookupConn st 3 proto.reconnectionToken = none)
    (hrec : proto.reconnection = false) :
    connect st msg proto spawnOk = ⟨getCachedConnectionMap st 3, .tunneled, []⟩ := by
  have hf : bucketGet (getBucket (getCachedConnectionMap st 3) 3)
      proto.reconnectionToken = none := by
    rw [getBucket_getCached]; exact hnone
  unfold connect
  rw [hmsg]
  simp only [hf, hrec, Bool.false_eq_true, if_false]
  rfl

theorem connect_eq_unknown (st : ServerState) (msg : HelloMessage) (proto : Protocol)
    (spawnOk : Bool) (ct : Nat)
    (hmsg : msg.desiredConnectionType = some ct)
    (hct : ct ≠ 0 ∧ ct ≠ 1 ∧ ct ≠ 2 ∧ ct ≠ 3)
    (hnone : lookupConn st ct proto.reconnectionToken = none)
    (hrec : proto.reconnection = false) :
    connect st msg proto spawnOk =
      ⟨getCachedConnectionMap st ct, .failed .unknownConnectionType, []⟩ := by
  have hf : bucketGet (getBucket (getCachedConnectionMap st ct) ct)
      proto.reconnectionToken = none := by
    rw [getBucket_getCached]; exact hnone
  unfold connect
  rw [hmsg]
  simp only [if_neg hct.1, hf, hrec, Bool.false_eq_true, if_false, if_neg hct.2.1,
    if_neg hct.2.2.1, if_neg hct.2.2.2]

/-- What `connections.set` followed by `disposeOldOfflineConnections` does
when the token was unknown and the new connection is online. -/
theorem registerConnection_of_none (st : ServerState) (ct : Nat) (tok : String)
    (c : Conn) (notified : Bool)
    (hnone : lookupConn st ct tok = none) (hc : c.offline = none) :
    (registerConnection st ct tok c notified).outcome = .created c notified ∧
    lookupConn (registerConnection st ct tok c notified).state ct tok = some c ∧
    (registerConnection st ct tok c notified).state.nextId = st.nextId + 1 ∧
    (registerConnection st ct tok c notified).closed = offlineEntries (getBucket st ct) ∧
    (∀ tok' c', lookupConn (registerConnection st ct tok c notified).state ct tok' = some c' →
      (tok', c') ∈ getBucket st ct ∨ (tok' = tok ∧ c' = c)) ∧
    (∀ tok' c', lookupConn (registerConnection st ct tok c notified).state ct tok' = some c' →
      c'.offline = none) := by
  have hkeys : ∀ e ∈ getBucket st ct, e.1 ≠ tok :=
    (bucketGet_eq_none_iff (getBucket st ct) tok).mp hnone
  have hset : bucketSet (getBucket st ct) tok c = getBucket st ct ++ [(tok, c)] :=
    bucketSet_of_none _ _ _ hnone
  have hoffl : offlineEntries (getBucket st ct ++ [(tok, c)]) =
      offlineEntries (getBucket st ct) :=
    offlineEntries_append_online _ _ _ hc
  have hmax : maxExtraOfflineConnections = 0 := rfl
  have hgb : getBucket (registerConnection st ct tok c notified).state ct =
      (disposeOldOfflineConnections 0 (getBucket st ct ++ [(tok, c)])).1 := by
    rw [← hset, ← hmax]
    simp only [registerConnection, getBucket, getAssoc_setAssoc_same, Option.getD_some]
  have hclosed2 : (disposeOldOfflineConnections 0 (getBucket st ct ++ [(tok, c)])).2 =
      offlineEntries (getBucket st ct) := by
    rw [dispose_zero_closed, hoffl]
  have hdoomkeys : ∀ d ∈ (disposeOldOfflineConnections 0
      (getBucket st ct ++ [(tok, c)])).2, d.1 ≠ tok := by
    intro d hd
    rw [hclosed2] at hd
    exact hkeys d (offlineEntries_subset _ _ hd)
  refine ⟨rfl, ?_, rfl, ?_, ?_, ?_⟩
  · -- the fresh entry survives disposal and is found under its token
    rw [lookupConn, hgb]
    rw [show (disposeOldOfflineConnections 0 (getBucket st ct ++ [(tok, c)])).1 =
        (getBucket st ct ++ [(tok, c)]).filter
          (fun e => ! (disposeOldOfflineConnections 0
            (getBucket st ct ++ [(tok, c)])).2.any fun d => d.1 == e.1) from rfl]
    rw [List.filter_append]
    rw [bucketGet_append_of_none _ _ _
      (fun e he => hkeys e (List.mem_of_mem_filter he))]
    have hany : ((disposeOldOfflineConnections 0
        (getBucket st ct ++ [(tok, c)])).2.any fun d => d.1 == tok) = false := by
      rw [List.any_eq_false]
      intro d hd
      simpa using hdoomkeys d hd
    simp [List.filter_cons, hany, bucketGet]
  · show (disposeOldOfflineConnections maxExtraOfflineConnections
        (bucketSet (getBucket st ct) tok c)).2 = _
    rw [hmax, hset, hclosed2]
  · intro tok' c' h
    rw [lookupConn, hgb] at h
    have hmem := bucketGet_mem _ _ _ h
    have hmem2 := dispose_subset _ _ _ hmem
    rcases List.mem_append.mp hmem2 with hm | hm
    · exact Or.inl hm
    · right
      simp only [List.mem_singleton, Prod.mk.injEq] at hm
      exact hm
  · intro tok' c' h
    rw [lookupConn, hgb] at h
    have hmem := bucketGet_mem _ _ _ h
    exact dispose_zero_survivors _ _ hmem

example : base64Encode (sha1 (strBytes "abc")) = "qZk+NkcGgWq6PiVxeFDCbJzQ2J0=" := by decide

/-! ## Claims about the Handshake Codec -/

theorem strBytes_append (a b : String) : strBytes (a ++ b) = strBytes a ++ strBytes b := by
  simp [strBytes, String.data_append]

/-- C6: for every request header mapping containing a handshake key, the
Sec-WebSocket-Accept value in the computed upgrade response equals
base64(SHA-1(key ++ "258EAFA5-E914-47DA-95CA-C5AB0DC85B11")), the fixed
36-byte protocol magic string: the response block is the literal header
lines with exactly that accept value (followed only by the optional
extensions line). -/
theorem c6_accept_value (hs : Headers) (key : String)
    (hkey : headersGet hs "sec-websocket-key" = some key) :
    (∃ extra : List String,
      (createReponseHeaders hs).responseHeaders =
        String.intercalate "\r\n"
          (["HTTP/1.1 101 Web Socket Protocol Handshake", "Upgrade: WebSocket",
            "Connection: Upgrade",
            "Sec-WebSocket-Accept: " ++
              base64Encode (sha1 (strBytes key ++ strBytes WEBSOCKET_MAGIC))] ++ extra) ++
          "\r\n\r\n") ∧
    (strBytes WEBSOCKET_MAGIC).length = 36 := by
  refine ⟨?_, by decide⟩
  by_cases hext : hasSubstring "permessage-deflate".data
      (jsHeaderString (headersGet hs "sec-websocket-extensions")).data = true
  · refine ⟨[extensionLine], ?_⟩
    simp only [createReponseHeaders, hkey]
    rw [if_pos hext]
    simp [jsHeaderString, strBytes_append]
  · refine ⟨[], ?_⟩
    simp only [createReponseHeaders, hkey]
    rw [if_neg hext]
    simp [jsHeaderString, strBytes_append]

/-- Concrete headers carrying the RFC 6455 section 1.3 example key. -/
def rfcKeyHeaders : Headers := [("sec-websocket-key", "dGhlIHNhbXBsZSBub25jZQ==")]

/-- Witness for C6 at the RFC 6455 example key, pinning the computed accept
value to the value published in the RFC ("s3pPLMBiTxaQ9kYGzzhZRbK+xOo="). -/
theorem c6_accept_value_witness :
    ((∃ extra : List String,
      (createReponseHeaders rfcKeyHeaders).responseHeaders =
        String.intercalate "\r\n"
          (["HTTP/1.1 101 Web Socket Protocol Handshake", "Upgrade: WebSocket",
            "Connection: Upgrade",
            "Sec-WebSocket-Accept: " ++
              base64Encode (sha1 (strBytes "dGhlIHNhbXBsZSBub25jZQ==" ++
                strBytes WEBSOCKET_MAGIC))] ++ extra) ++
          "\r\n\r\n") ∧
      (strBytes WEBSOCKET_MAGIC).length = 36) ∧
    base64Encode (sha1 (strBytes "dGhlIHNhbXBsZSBub25jZQ==" ++ strBytes WEBSOCKET_MAGIC)) =
      "s3pPLMBiTxaQ9kYGzzhZRbK+xOo=" :=
  ⟨c6_accept_value rfcKeyHeaders "dGhlIHNhbXBsZSBub25jZQ==" (by decide), by decide⟩

/-- C7 (amended): the computed upgrade response is exactly the literal
101 header block terminated by an empty line, and the extension line is
present (with `compressionEnabled = true`) exactly when the extensions
header contains "permessage-deflate" by CASE-SENSITIVE substring match
(the source uses `String.prototype.indexOf`, which does not fold case). -/
theorem c7_response_format (hs : Headers) :
    (createReponseHeaders hs).responseHeaders =
      String.intercalate "\r\n"
        (["HTTP/1.1 101 Web Socket Protocol Handshake", "Upgrade: WebSocket",
          "Connection: Upgrade",
          "Sec-WebSocket-Accept: " ++ base64Encode (sha1 (strBytes
            (jsHeaderString (headersGet hs "sec-websocket-key") ++ WEBSOCKET_MAGIC)))] ++
          (if hasSubstring "permessage-deflate".data
              (jsHeaderString (headersGet hs "sec-websocket-extensions")).data
            then [extensionLine] else [])) ++ "\r\n\r\n" ∧
    ((createReponseHeaders hs).permessageDeflate = true ↔
      hasSubstring "permessage-deflate".data
        (jsHeaderString (headersGet hs "sec-websocket-extensions")).data = true) := by
  by_cases hext : hasSubstring "permessage-deflate".data
      (jsHeaderString (headersGet hs "sec-websocket-extensions")).data = true <;>
    simp [createReponseHeaders, hext]

/-- ASCII lowercase folding, for stating what a case-insensitive match
would have seen. -/
def lowerStr (s : String) : String := String.mk (s.data.map Char.toLower)

/-- Headers whose extensions value names permessage-deflate in mixed case. -/
def mixedCaseHeaders : Headers :=
  [("sec-websocket-key", "dGhlIHNhbXBsZSBub25jZQ=="),
    ("sec-websocket-extensions", "Permessage-Deflate")]

/-- C7 counterexample: an extensions header containing the compression
token in mixed case matches case-insensitively, yet the code neither sets
`compressionEnabled` nor advertises the extension line — the match in the
source is case-sensitive, not case-insensitive as claimed. -/
theorem c7_counterexample :
    hasSubstring "permessage-deflate".data (lowerStr "Permessage-Deflate").data = true ∧
    (createReponseHeaders mixedCaseHeaders).permessageDeflate = false ∧
    hasSubstring extensionLine.data
      (createReponseHeaders mixedCaseHeaders).responseHeaders.data = false := by
  refine ⟨by decide, by decide, by decide⟩

/-- An upgrade request with `Upgrade: websocket` but no handshake key. -/
def c8Headers : Headers := [("upgrade", "websocket"), ("host", "localhost")]

/-- C8 (code behavior at the failing input): an upgrade request lacking
`sec-websocket-key` is NOT rejected — `upgrade` never checks the key, and
`createReponseHeaders` coerces the `undefined` key to the string
"undefined", emitting a 101 handshake whose accept value is
base64(SHA-1("undefined" ++ magic)), instead of the spec's
`MalformedHandshake` / 400 rejection. -/
theorem c8_missing_key_still_101 :
    headersGet c8Headers "sec-websocket-key" = none ∧
    upgrade c8Headers (some "/?reconnectionToken=t1") true =
      .accepted ⟨"HTTP/1.1 101 Web Socket Protocol Handshake\r\nUpgrade: WebSocket\r\nConnection: Upgrade\r\nSec-WebSocket-Accept: gH2cR3x4MfGXKljgIwL3fMYv0sY=\r\n\r\n", false⟩ ∧
    base64Encode (sha1 (strBytes ("undefined" ++ WEBSOCKET_MAGIC))) =
      "gH2cR3x4MfGXKljgIwL3fMYv0sY=" := by
  refine ⟨by decide, by decide, by decide⟩

example :
    base64Encode (sha1 (strBytes ("dGhlIHNhbXBsZSBub25jZQ==" ++ WEBSOCKET_MAGIC))) =
      "s3pPLMBiTxaQ9kYGzzhZRbK+xOo=" := by decide

/-! ## Claims about the Connection Registry -/

/-- The empty registry of a freshly started server. -/
def emptyState : ServerState := ⟨[], 0⟩

/-- C1 counterexample: a fresh (non-reconnection) Tunnel hello with a
never-seen token is accepted — `connect` returns the relay outcome — yet no
LogicalConnection is inserted into the registry under its token (the Tunnel
branch returns before `connections.set`), contradicting the claim that
every accepted fresh hello inserts its connection. -/
theorem c1_counterexample :
    (connect emptyState ⟨"abc", some 3⟩ ⟨7, "t1", false⟩ true).outcome = .tunneled ∧
    lookupConn (connect emptyState ⟨"abc", some 3⟩ ⟨7, "t1", false⟩ true).state 3 "t1" =
      none := by
  refine ⟨by decide, by decide⟩

/-- C1 (amended): for every accepted hello with `isReconnectionAttempt`
false whose (type, token) pair has no registry entry, of type Management or
ComputeProcess (with the worker spawn succeeding), `connect` creates
exactly one new LogicalConnection — its identity `st.nextId` is fresh, no
other new identity appears — binds the new socket, inserts it into the
registry under that token, returns it, and the connect notification is
observable at most once.  (A fresh Tunnel hello instead starts a relay
without inserting a registry entry.) -/
theorem c1_fresh_hello_creates (st : ServerState) (msg : HelloMessage)
    (proto : Protocol) (spawnOk : Bool) (ct : Nat)
    (hmsg : msg.desiredConnectionType = some ct)
    (hct : ct = 1 ∨ (ct = 2 ∧ spawnOk = true))
    (hrec : proto.reconnection = false)
    (hnone : lookupConn st ct proto.reconnectionToken = none)
    (hw : freshIds st = true) :
    (connect st msg proto spawnOk).outcome =
      .created ⟨st.nextId, proto.socketId, none⟩ (ct == 1) ∧
    lookupConn (connect st msg proto spawnOk).state ct proto.reconnectionToken =
      some ⟨st.nextId, proto.socketId, none⟩ ∧
    (connect st msg proto spawnOk).state.nextId = st.nextId + 1 ∧
    notifCount (connect st msg proto spawnOk).outcome ≤ 1 ∧
    (∀ tok' c', lookupConn (connect st msg proto spawnOk).state ct tok' = some c' →
      c'.id < st.nextId ∨ c' = ⟨st.nextId, proto.socketId, none⟩) := by
  have hlt : ∀ tok' c', (tok', c') ∈ getBucket st ct → c'.id < st.nextId := by
    intro tok' c' hm
    exact freshIds_lt st ct tok' c' hw hm
  rcases hct with hct | ⟨hct, hspawn⟩
  · subst hct
    rw [connect_eq_created_management st msg proto spawnOk hmsg hnone hrec]
    have hnone' : lookupConn (getCachedConnectionMap st 1) 1 proto.reconnectionToken =
        none := by rw [lookupConn_getCached]; exact hnone
    obtain ⟨h1, h2, h3, _, h5, _⟩ := registerConnection_of_none
      (getCachedConnectionMap st 1) 1 proto.reconnectionToken
      ⟨st.nextId, proto.socketId, none⟩ true hnone' rfl
    refine ⟨h1, h2, h3, ?_, ?_⟩
    · rw [h1]; simp [notifCount]
    · intro tok' c' h
      rcases h5 tok' c' h with hm | ⟨_, hm⟩
      · rw [getBucket_getCached] at hm
        exact Or.inl (hlt tok' c' hm)
      · exact Or.inr hm
  · subst hct
    subst hspawn
    rw [connect_eq_created_exthost st msg proto hmsg hnone hrec]
    have hnone' : lookupConn (getCachedConnectionMap st 2) 2 proto.reconnectionToken =
        none := by rw [lookupConn_getCached]; exact hnone
    obtain ⟨h1, h2, h3, _, h5, _⟩ := registerConnection_of_none
      (getCachedConnectionMap st 2) 2 proto.reconnectionToken
      ⟨st.nextId, proto.socketId, none⟩ false hnone' rfl
    refine ⟨h1, h2, h3, ?_, ?_⟩
    · rw [h1]; simp [notifCount]
    · intro tok' c' h
      rcases h5 tok' c' h with hm | ⟨_, hm⟩
      · rw [getBucket_getCached] at hm
        exact Or.inl (hlt tok' c' hm)
      · exact Or.inr hm

/-- Witness for C1 at a concrete fresh Management hello on the empty
registry. -/
theorem c1_fresh_hello_creates_witness :
    (connect emptyState ⟨"abc", some 1⟩ ⟨7, "t1", false⟩ true).outcome =
      .created ⟨0, 7, none⟩ true ∧
    lookupConn (connect emptyState ⟨"abc", some 1⟩ ⟨7, "t1", false⟩ true).state 1 "t1" =
      some ⟨0, 7, none⟩ := by
  have h := c1_fresh_hello_creates emptyState ⟨"abc", some 1⟩ ⟨7, "t1", false⟩ true 1
    rfl (Or.inl rfl) rfl (by decide) (by decide)
  exact ⟨h.1, h.2.1⟩

/-- C2: a reconnection hello whose token matches a registry entry of the
same type in state Offline resolves to the very same LogicalConnection
(identity `id` preserved, so downstream holders observe continuity and no
connect notification re-fires), rebinds its socket to the new socket, and
transitions it to Online; no other registry entry changes. -/
theorem c2_reconnection_restores (st : ServerState) (msg : HelloMessage)
    (proto : Protocol) (spawnOk : Bool) (ct : Nat) (c : Conn) (t : Nat)
    (hmsg : msg.desiredConnectionType = some ct) (hct : ct ≠ 0)
    (hfound : lookupConn st ct proto.reconnectionToken = some c)
    (_hoff : c.offline = some t)
    (hrec : proto.reconnection = true) :
    (connect st msg proto spawnOk).outcome = .reconnected (reconnectConn c proto) ∧
    (reconnectConn c proto).id = c.id ∧
    (reconnectConn c proto).socketId = proto.socketId ∧
    (reconnectConn c proto).offline = none ∧
    lookupConn (connect st msg proto spawnOk).state ct proto.reconnectionToken =
      some (reconnectConn c proto) ∧
    (∀ ct' tok', ct' ≠ ct ∨ tok' ≠ proto.reconnectionToken →
      lookupConn (connect st msg proto spawnOk).state ct' tok' =
        lookupConn st ct' tok') ∧
    notifCount (connect st msg proto spawnOk).outcome = 0 ∧
    (connect st msg proto spawnOk).closed = [] := by
  rw [connect_eq_reconnected st msg proto spawnOk ct c hmsg hct hfound hrec]
  refine ⟨rfl, rfl, rfl, rfl, ?_, ?_, rfl, rfl⟩
  · exact lookupConn_setConn_same _ _ _ _
  · intro ct' tok' hne
    rw [lookupConn_setConn_other _ _ _ _ _ _ hne, lookupConn_getCached]

/-- A registry holding one Offline Management connection under token "t1". -/
def c2State : ServerState := ⟨[(1, [("t1", ⟨0, 5, some 10⟩)])], 1⟩

/-- Witness for C2: reconnecting to the Offline connection of `c2State`
restores identity 0, rebinds to socket 9 and goes Online. -/
theorem c2_reconnection_restores_witness :
    (connect c2State ⟨"abc", some 1⟩ ⟨9, "t1", true⟩ true).outcome =
      .reconnected ⟨0, 9, none⟩ ∧
    lookupConn (connect c2State ⟨"abc", some 1⟩ ⟨9, "t1", true⟩ true).state 1 "t1" =
      some ⟨0, 9, none⟩ := by
  have h := c2_reconnection_restores c2State ⟨"abc", some 1⟩ ⟨9, "t1", true⟩ true 1
    ⟨0, 5, some 10⟩ 10 rfl (by decide) (by decide) rfl rfl
  exact ⟨h.1, h.2.2.2.2.1⟩

/-- C3: a reconnection hello whose token has no registry entry for the
desired type fails with StaleSession and leaves every registry entry
unchanged (in particular no entry is created for that token). -/
theorem c3_stale_session (st : ServerState) (msg : HelloMessage) (proto : Protocol)
    (spawnOk : Bool) (ct : Nat)
    (hmsg : msg.desiredConnectionType = some ct) (hct : ct ≠ 0)
    (hrec : proto.reconnection = true)
    (hnone : lookupConn st ct proto.reconnectionToken = none) :
    (connect st msg proto spawnOk).outcome = .failed .staleSession ∧
    (∀ ct' tok', lookupConn (connect st msg proto spawnOk).state ct' tok' =
      lookupConn st ct' tok') ∧
    lookupConn (connect st msg proto spawnOk).state ct proto.reconnectionToken = none := by
  rw [connect_eq_stale st msg proto spawnOk ct hmsg hct hnone hrec]
  refine ⟨rfl, ?_, ?_⟩
  · intro ct' tok'
    exact lookupConn_getCached st ct ct' tok'
  · rw [lookupConn_getCached]
    exact hnone

/-- Witness for C3 at a reconnection hello against the empty registry. -/
theorem c3_stale_session_witness :
    (connect emptyState ⟨"abc", some 1⟩ ⟨7, "t9", true⟩ true).outcome =
      .failed .staleSession ∧
    lookupConn (connect emptyState ⟨"abc", some 1⟩ ⟨7, "t9", true⟩ true).state 1 "t9" =
      none := by
  have h := c3_stale_session emptyState ⟨"abc", some 1⟩ ⟨7, "t9", true⟩ true 1
    rfl (by decide) rfl (by decide)
  exact ⟨h.1, h.2.2⟩

/-- C4: a fresh (non-reconnection) hello whose token already has a registry
entry for the desired type fails with TokenCollision and leaves every
entry unchanged — in particular the existing connection stays in place, so
a token never maps to more than one live connection within a type. -/
theorem c4_token_collision (st : ServerState) (msg : HelloMessage) (proto : Protocol)
    (spawnOk : Bool) (ct : Nat) (c : Conn)
    (hmsg : msg.desiredConnectionType = some ct) (hct : ct ≠ 0)
    (hrec : proto.reconnection = false)
    (hfound : lookupConn st ct proto.reconnectionToken = some c) :
    (connect st msg proto spawnOk).outcome = .failed .tokenCollision ∧
    (∀ ct' tok', lookupConn (connect st msg proto spawnOk).state ct' tok' =
      lookupConn st ct' tok') ∧
    lookupConn (connect st msg proto spawnOk).state ct proto.reconnectionToken =
      some c := by
  rw [connect_eq_collision st msg proto spawnOk ct c hmsg hct hfound hrec]
  refine ⟨rfl, ?_, ?_⟩
  · intro ct' tok'
    exact lookupConn_getCached st ct ct' tok'
  · rw [lookupConn_getCached]
    exact hfound

/-- Witness for C4: a second fresh hello under the token of `c2State`. -/
theorem c4_token_collision_witness :
    (connect c2State ⟨"abc", some 1⟩ ⟨9, "t1", false⟩ true).outcome =
      .failed .tokenCollision ∧
    lookupConn (connect c2State ⟨"abc", some 1⟩ ⟨9, "t1", false⟩ true).state 1 "t1" =
      some ⟨0, 5, some 10⟩ := by
  have h := c4_token_collision c2State ⟨"abc", some 1⟩ ⟨9, "t1", false⟩ true 1
    ⟨0, 5, some 10⟩ rfl (by decide) rfl (by decide)
  exact ⟨h.1, h.2.2⟩

/-- A registry holding one Offline and one Online Management connection. -/
def c5State : ServerState := ⟨[(1, [("t1", ⟨0, 5, some 10⟩), ("t2", ⟨1, 6, none⟩)])], 2⟩

/-- C5 counterexample: when the connection under "t2" goes Offline, the
number of Offline Management connections (2) exceeds the retention count
(0), yet no surplus connection is closed — both entries remain in the
registry undisposed.  Eviction is not triggered by a connection going
Offline: `disposeOldOfflineConnections` is private to `WebSocketServer`
and its only call site is at the end of `connect`. -/
theorem c5_counterexample :
    offlineCount (markOffline c5State 1 "t2" 20) 1 = 2 ∧
    maxExtraOfflineConnections = 0 ∧
    lookupConn (markOffline c5State 1 "t2" 20) 1 "t1" = some ⟨0, 5, some 10⟩ ∧
    lookupConn (markOffline c5State 1 "t2" 20) 1 "t2" = some ⟨1, 6, some 20⟩ := by
  refine ⟨by decide, rfl, by decide, by decide⟩

/-- C5 (amended): surplus Offline connections of a type are forcibly
closed, oldest-created first, down to the retention limit (hard-coded 0),
and this eviction is triggered when a new connection of the same type is
successfully created and registered (at the end of `connect`) — not when a
connection goes Offline.  The disposal list equals the full list of the
type's Offline entries in creation order, and afterwards no Offline
connection of that type remains. -/
theorem c5_eviction_on_register (st : ServerState) (msg : HelloMessage)
    (proto : Protocol) (spawnOk : Bool) (ct : Nat)
    (hmsg : msg.desiredConnectionType = some ct)
    (hct : ct = 1 ∨ (ct = 2 ∧ spawnOk = true))
    (hrec : proto.reconnection = false)
    (hnone : lookupConn st ct proto.reconnectionToken = none) :
    (connect st msg proto spawnOk).closed = offlineEntries (getBucket st ct) ∧
    (∀ tok' c', lookupConn (connect st msg proto spawnOk).state ct tok' = some c' →
      c'.offline = none) := by
  rcases hct with hct | ⟨hct, hspawn⟩
  · subst hct
    rw [connect_eq_created_management st msg proto spawnOk hmsg hnone hrec]
    have hnone' : lookupConn (getCachedConnectionMap st 1) 1 proto.reconnectionToken =
        none := by rw [lookupConn_getCached]; exact hnone
    obtain ⟨_, _, _, h4, _, h6⟩ := registerConnection_of_none
      (getCachedConnectionMap st 1) 1 proto.reconnectionToken
      ⟨st.nextId, proto.socketId, none⟩ true hnone' rfl
    rw [getBucket_getCached] at h4
    exact ⟨h4, h6⟩
  · subst hct
    subst hspawn
    rw [connect_eq_created_exthost st msg proto hmsg hnone hrec]
    have hnone' : lookupConn (getCachedConnectionMap st 2) 2 proto.reconnectionToken =
        none := by rw [lookupConn_getCached]; exact hnone
    obtain ⟨_, _, _, h4, _, h6⟩ := registerConnection_of_none
      (getCachedConnectionMap st 2) 2 proto.reconnectionToken
      ⟨st.nextId, proto.socketId, none⟩ false hnone' rfl
    rw [getBucket_getCached] at h4
    exact ⟨h4, h6⟩

/-- Witness for C5: a fresh Management hello on a registry holding two
Offline connections disposes both, oldest first, leaving none Offline. -/
theorem c5_eviction_on_register_witness :
    (connect ⟨[(1, [("a", ⟨0, 3, some 10⟩), ("b", ⟨1, 4, some 11⟩)])], 2⟩
        ⟨"abc", some 1⟩ ⟨7, "t1", false⟩ true).closed =
      [("a", ⟨0, 3, some 10⟩), ("b", ⟨1, 4, some 11⟩)] := by
  have h := c5_eviction_on_register
    ⟨[(1, [("a", ⟨0, 3, some 10⟩), ("b", ⟨1, 4, some 11⟩)])], 2⟩
    ⟨"abc", some 1⟩ ⟨7, "t1", false⟩ true 1 rfl (Or.inl rfl) rfl (by decide)
  rw [h.1]
  decide

/-- C9 counterexample: a hello whose `desiredConnectionType` is the
unrecognized value 7 with `isReconnectionAttempt` true is rejected with
StaleSession (the reconnection check precedes the type switch), not with
the UnknownConnectionType rejection the claim requires for every
unrecognized type. -/
theorem c9_counterexample :
    (connect emptyState ⟨"abc", some 7⟩ ⟨7, "t1", true⟩ true).outcome =
      .failed .staleSession ∧
    ConnectError.staleSession ≠ ConnectError.unknownConnectionType ∧
    ConnectError.staleSession ≠ ConnectError.expectedConnectionType := by
  refine ⟨by decide, by decide, by decide⟩

/-- C9 (amended): a hello whose `desiredConnectionType` is missing (absent
or the falsy 0) is rejected with the missing-type error before touching the
registry; one with an unrecognized present type and no entry for its token
is rejected with UnknownConnectionType when `isReconnectionAttempt` is
false, but with StaleSession when it is true (the reconnection check runs
first).  In every case the socket is disposed by `handleWebSocket` and no
registry entry is created for the hello's token. -/
theorem c9_unknown_type_rejected (st : ServerState) (msg : HelloMessage)
    (proto : Protocol) (spawnOk : Bool) :
    ((msg.desiredConnectionType = none ∨ msg.desiredConnectionType = some 0) →
      (connect st msg proto spawnOk).outcome = .failed .expectedConnectionType ∧
      (connect st msg proto spawnOk).state = st ∧
      (handleWebSocket st msg proto spawnOk).2 = true) ∧
    (∀ ct, msg.desiredConnectionType = some ct →
      ct ≠ 0 → ct ≠ 1 → ct ≠ 2 → ct ≠ 3 →
      lookupConn st ct proto.reconnectionToken = none →
      ((proto.reconnection = false →
        (connect st msg proto spawnOk).outcome = .failed .unknownConnectionType) ∧
       (proto.reconnection = true →
        (connect st msg proto spawnOk).outcome = .failed .staleSession) ∧
       (handleWebSocket st msg proto spawnOk).2 = true ∧
       (∀ ct' tok', lookupConn (connect st msg proto spawnOk).state ct' tok' =
         lookupConn st ct' tok'))) := by
  constructor
  · intro hmiss
    rw [connect_eq_missing st msg proto spawnOk hmiss]
    refine ⟨rfl, rfl, ?_⟩
    simp [handleWebSocket, connect_eq_missing st msg proto spawnOk hmiss]
  · intro ct hmsg h0 h1 h2 h3 hnone
    cases hrecv : proto.reconnection with
    | false =>
      rw [connect_eq_unknown st msg proto spawnOk ct hmsg ⟨h0, h1, h2, h3⟩ hnone hrecv]
      refine ⟨fun _ => rfl, fun h => absurd h (by decide), ?_, ?_⟩
      · simp [handleWebSocket,
          connect_eq_unknown st msg proto spawnOk ct hmsg ⟨h0, h1, h2, h3⟩ hnone hrecv]
      · intro ct' tok'
        exact lookupConn_getCached st ct ct' tok'
    | true =>
      rw [connect_eq_stale st msg proto spawnOk ct hmsg h0 hnone hrecv]
      refine ⟨fun h => absurd h (by decide), fun _ => rfl, ?_, ?_⟩
      · simp [handleWebSocket,
          connect_eq_stale st msg proto spawnOk ct hmsg h0 hnone hrecv]
      · intro ct' tok'
        exact lookupConn_getCached st ct ct' tok'

/-- Witness for C9: a missing type and an unrecognized type 7 (both
reconnection flags), on the empty registry. -/
theorem c9_unknown_type_rejected_witness :
    (connect emptyState ⟨"abc", none⟩ ⟨7, "t1", false⟩ true).outcome =
      .failed .expectedConnectionType ∧
    (connect emptyState ⟨"abc", some 7⟩ ⟨7, "t1", false⟩ true).outcome =
      .failed .unknownConnectionType ∧
    lookupConn (connect emptyState ⟨"abc", some 7⟩ ⟨7, "t1", false⟩ true).state 7 "t1" =
      none := by
  have ha := (c9_unknown_type_rejected emptyState ⟨"abc", none⟩ ⟨7, "t1", false⟩ true).1
    (Or.inl rfl)
  have hb := (c9_unknown_type_rejected emptyState ⟨"abc", some 7⟩ ⟨7, "t1", false⟩ true).2
    7 rfl (by decide) (by decide) (by decide) (by decide) (by decide)
  refine ⟨ha.1, hb.1 rfl, ?_⟩
  rw [hb.2.2.2 7 "t1"]
  decide

/-- C10: for the Tunnel connection type (3), reconnection is never
supported: a fresh accepted Tunnel hello yields the relay outcome and
changes no registry entry (each attempt is a fresh relay, nothing is
registered); and Tunnel hellos hit the generic registry rules — a
reconnection attempt with no entry fails with StaleSession, and a fresh
hello whose token has an entry fails with TokenCollision. -/
theorem c10_tunnel_rules (st : ServerState) (msg : HelloMessage) (proto : Protocol)
    (spawnOk : Bool)
    (hmsg : msg.desiredConnectionType = some 3) :
    (proto.reconnection = false → lookupConn st 3 proto.reconnectionToken = none →
      (connect st msg proto spawnOk).outcome = .tunneled ∧
      (∀ ct' tok', lookupConn (connect st msg proto spawnOk).state ct' tok' =
        lookupConn st ct' tok')) ∧
    (proto.reconnection = true → lookupConn st 3 proto.reconnectionToken = none →
      (connect st msg proto spawnOk).outcome = .failed .staleSession) ∧
    (∀ c, proto.reconnection = false →
      lookupConn st 3 proto.reconnectionToken = some c →
      (connect st msg proto spawnOk).outcome = .failed .tokenCollision) := by
  refine ⟨?_, ?_, ?_⟩
  · intro hrec hnone
    rw [connect_eq_tunneled st msg proto spawnOk hmsg hnone hrec]
    exact ⟨rfl, fun ct' tok' => lookupConn_getCached st 3 ct' tok'⟩
  · intro hrec hnone
    rw [connect_eq_stale st msg proto spawnOk 3 hmsg (by decide) hnone hrec]
  · intro c hrec hfound
    rw [connect_eq_collision st msg proto spawnOk 3 c hmsg (by decide) hfound hrec]

/-- Witness for C10: a fresh Tunnel hello on the empty registry, a Tunnel
reconnection against the empty registry, and a fresh Tunnel hello against a
registry artificially holding an entry for its token. -/
theorem c10_tunnel_rules_witness :
    (connect emptyState ⟨"abc", some 3⟩ ⟨7, "t1", false⟩ true).outcome = .tunneled ∧
    (connect emptyState ⟨"abc", some 3⟩ ⟨7, "t1", true⟩ true).outcome =
      .failed .staleSession ∧
    (connect ⟨[(3, [("t1", ⟨0, 5, some 10⟩)])], 1⟩ ⟨"abc", some 3⟩
        ⟨7, "t1", false⟩ true).outcome = .failed .tokenCollision := by
  have ha := (c10_tunnel_rules emptyState ⟨"abc", some 3⟩ ⟨7, "t1", false⟩ true rfl).1
    rfl (by decide)
  have hb := (c10_tunnel_rules emptyState ⟨"abc", some 3⟩ ⟨7, "t1", true⟩ true rfl).2.1
    rfl (by decide)
  have hc := (c10_tunnel_rules ⟨[(3, [("t1", ⟨0, 5, some 10⟩)])], 1⟩ ⟨"abc", some 3⟩
    ⟨7, "t1", false⟩ true rfl).2.2 ⟨0, 5, some 10⟩ rfl (by decide)
  exact ⟨ha.1, hb, hc⟩
